import Mathlib

/-!
Verification development for the KidsGuard repository (Flask dashboard
`app.py` + upstream client `trio_client.py`).

The Python source is shallowly embedded: pure helpers become Lean
functions; route handlers and the SSE relay become explicit state-passing
functions; Python exceptions become `Except String`; JSON values parsed by
`json.loads` become the inductive `JsonValue`, and `json.loads` itself —
a library function external to the repository — is a parameter
`parse : String → Option JsonValue` (`none` models `json.JSONDecodeError`).
Python `str.lower` is modelled on ASCII letters (the fixed keyword set is
ASCII), and `dict.get` on a non-dict value is modelled as the
`AttributeError` it raises in Python.
-/

/-! ## Definitions: the shallow embedding of the source -/

/-- ASCII lower-casing of one character, as `str.lower` acts on ASCII. -/
def pyCharLower (c : Char) : Char :=
  if 65 ≤ c.toNat ∧ c.toNat ≤ 90 then Char.ofNat (c.toNat + 32) else c

/-- `s.lower()` (modelled on ASCII letters). -/
def pyLower (s : String) : String :=
  ⟨s.data.map pyCharLower⟩

/-- Python whitespace stripped by `str.strip()` (ASCII part). -/
def isSpaceChar (c : Char) : Bool :=
  c == ' ' || c == '\t' || c == '\n' || c == '\r' || c == '\x0b' || c == '\x0c'

/-- `s.strip()`. -/
def pyStrip (s : String) : String :=
  ⟨((s.data.dropWhile isSpaceChar).reverse.dropWhile isSpaceChar).reverse⟩

/-- `s[n:]`. -/
def strDrop (s : String) (n : Nat) : String :=
  ⟨s.data.drop n⟩

/-- Does the second list start with the first? -/
def startsWithChars : List Char → List Char → Bool
  | [], _ => true
  | _ :: _, [] => false
  | a :: as, b :: bs => a == b && startsWithChars as bs

/-- `s.startswith(p)`. -/
def pyStartsWith (s p : String) : Bool :=
  startsWithChars p.data s.data

/-- `needle in haystack` for Python strings: substring containment. -/
def subChars (needle : List Char) : List Char → Bool
  | [] => startsWithChars needle []
  | c :: rest => startsWithChars needle (c :: rest) || subChars needle rest

/-- The fixed keyword list from `classify_danger`. -/
def high_keywords : List String :=
  ["climbing", "window", "balcony", "knife", "medicine",
   "stranger", "falling", "sharp", "fire", "drown",
   "pool", "choking", "electric"]

/-- `classify_danger(triggered, condition, explanation)` from `app.py`.
`condition` is accepted and ignored, exactly as in the source. -/
def classify_danger (triggered : Bool) (condition explanation : String) : String :=
  if !triggered then "safe"
  else
    let lower_exp := pyLower explanation
    if high_keywords.any (fun kw => subChars kw.data lower_exp.data) then "high"
    else "medium"

/-- The keyword hit as the spec words it: some keyword of the fixed set
occurs as a contiguous substring of the lower-cased explanation. -/
def keywordHit (e : String) : Prop :=
  ∃ kw, kw ∈ high_keywords ∧ ∃ p q, (pyLower e).data = p ++ kw.data ++ q

/-- The result of `json.loads`: an arbitrary JSON value. -/
inductive JsonValue where
  | obj (fields : List (String × JsonValue))
  | arr (elems : List JsonValue)
  | str (s : String)
  | num (n : Int)
  | bool (b : Bool)
  | null

/-- First-match lookup in a JSON object's field list (dict keys are unique). -/
def lookupField : List (String × JsonValue) → String → Option JsonValue
  | [], _ => none
  | (k2, v) :: rest, k => if k2 = k then some v else lookupField rest k

/-- Python type name of a JSON value, as it appears in error messages. -/
def pyTypeName : JsonValue → String
  | .obj _ => "dict"
  | .arr _ => "list"
  | .str _ => "str"
  | .num _ => "int"
  | .bool _ => "bool"
  | .null => "NoneType"

/-- Python truthiness of a JSON value. -/
def pyTruthy : JsonValue → Bool
  | .obj fields => !fields.isEmpty
  | .arr elems => !elems.isEmpty
  | .str s => !(s == "")
  | .num n => !(n == 0)
  | .bool b => b
  | .null => false

/-- `v.get(k, dflt)`: succeeds on dicts, raises `AttributeError` otherwise
(the quote characters of the Python message are omitted). -/
def pyGet (v : JsonValue) (k : String) (dflt : JsonValue) : Except String JsonValue :=
  match v with
  | .obj fields => .ok ((lookupField fields k).getD dflt)
  | other => .error ("AttributeError: " ++ pyTypeName other ++ " object has no attribute get")

/-- Python `v == s` for a JSON value against a string literal. -/
def pyEqStr (v : JsonValue) (s : String) : Bool :=
  match v with
  | .str t => t == s
  | _ => false

/-- Response of a successful Trio `/check-once` call, in the shape that
the client docstring documents: `{triggered, explanation, latency_ms}`. -/
structure CheckResult where
  triggered : Bool
  explanation : String
  latency_ms : Int
deriving DecidableEq

/-- The alert record built by the `/api/check` route (`safety_check`). -/
structure AlertRecord where
  id : String
  timestamp : String
  stream_url : String
  condition : String
  triggered : Bool
  explanation : String
  latency_ms : Int
  danger_level : String
deriving DecidableEq

/-- The alert record built by the webhook receiver (`watch_triggered`
events); its fields mirror the raw JSON payload. -/
structure WebhookAlertRecord where
  id : String
  timestamp : JsonValue
  stream_url : JsonValue
  condition : JsonValue
  triggered : JsonValue
  explanation : JsonValue
  latency_ms : Int
  danger_level : String
  source : String
  frame_b64 : JsonValue

/-- `alert_history` holds the check-route records and the webhook records
side by side (Python stores heterogeneous dicts in one list). -/
inductive AlertEntry where
  | check (r : AlertRecord)
  | webhook (r : WebhookAlertRecord)

/-- An entry of `webhook_events`. -/
structure WebhookEvent where
  id : String
  received_at : String
  type : JsonValue
  timestamp : JsonValue
  source_url : JsonValue
  data : JsonValue

/-- An entry of `digest_summaries`. -/
structure DigestSummary where
  timestamp : String
  summary : JsonValue
  stream_url : String

/-- An entry of `active_monitors` (`job_id -> metadata`).  `status` starts
as the upstream response's `status` value and is later overwritten with
JSON values, so it is a `JsonValue`. -/
structure JobMeta where
  job_id : String
  stream_url : String
  condition : String
  webhook_url : String
  status : JsonValue
  started_at : String

/-- The `active_monitors` table. -/
abbrev Monitors := List (String × JobMeta)

/-- All mutable global stores of `app.py`. -/
structure AppState where
  alert_history : List AlertEntry
  webhook_events : List WebhookEvent
  digest_summaries : List DigestSummary
  active_monitors : Monitors

/-- The insert-then-trim idiom: `store.insert(0, r)` followed by
`if len(store) > cap: store.pop()` (`pop()` removes the LAST element). -/
def insertCapped (cap : Nat) (r : α) (log : List α) : List α :=
  let log2 := r :: log
  if log2.length > cap then log2.dropLast else log2

/-- The full newest-first insertion history: `f (n-1), …, f 1, f 0`. -/
def insertedList (f : Nat → α) : Nat → List α
  | 0 => []
  | n + 1 => f n :: insertedList f n

/-- N successive capped insertions starting from the empty store. -/
def iterCapped (f : Nat → α) : Nat → List α
  | 0 => []
  | n + 1 => insertCapped 200 (f n) (iterCapped f n)

/-- `start_digest_sse` (`trio_client.py`): `iter_lines` output filtered by
`if line:` — only non-empty decoded lines are yielded. -/
def digest_sse_lines (raw : List String) : List String :=
  raw.filter (fun l => !(l == ""))

/-- The synthetic downstream error frame
`f"data: \x7b\"type\":\"error\",\"message\":\"-exc-\"\x7d\n\n"`. -/
def errFrame (msg : String) : String :=
  "data: \x7b\"type\":\"error\",\"message\":\"" ++ msg ++ "\"\x7d\n\n"

/-- `parsed.get("type") == "summary"` for a parsed JSON object. -/
def isSummaryType (fields : List (String × JsonValue)) : Bool :=
  match lookupField fields "type" with
  | some (.str s) => s == "summary"
  | _ => false

/-- The mirroring step of the relay body for one upstream line: on a
`data:` line, parse the stripped remainder; `json.JSONDecodeError`
(`parse … = none`) is swallowed by the inner `except`, a parsed JSON
object of type `summary` is inserted at position 0 of `digest_summaries`
(no trim in the source), and `parsed.get` on a non-object parsed value
raises `AttributeError`, which the inner `except` does not catch. -/
def mirror_line (parse : String → Option JsonValue) (ts surl line : String)
    (store : List DigestSummary) : Except String (List DigestSummary) :=
  if pyStartsWith line "data:" then
    let raw := pyStrip (strDrop line 5)
    match parse raw with
    | none => .ok store
    | some (.obj fields) =>
        if isSummaryType fields then
          .ok ({ timestamp := ts,
                 summary := (lookupField fields "summary").getD (.str raw),
                 stream_url := surl } :: store)
        else .ok store
    | some other =>
        .error ("AttributeError: " ++ pyTypeName other
                ++ " object has no attribute get")
  else .ok store

/-- What the upstream iteration does: yields `lines` and then either
finishes normally or raises with a message. -/
inductive UpstreamOutcome where
  | ok (lines : List String)
  | err (lines : List String) (msg : String)

/-- The loop of `start_digest.generate`: each upstream line is yielded as
`line + "\n"` BEFORE its mirroring step runs; an exception from the
mirroring step or from the upstream iteration is caught by the outer
`except Exception`, which yields one synthetic error frame and ends the
generator.  `i` indexes the per-iteration `datetime.utcnow()` timestamp
`tss i`.  Returns (downstream frames, final digest_summaries). -/
def relayGo (parse : String → Option JsonValue) (tss : Nat → String)
    (surl : String) :
    Nat → List DigestSummary → List String → Option String →
      List String × List DigestSummary
  | _, store, [], none => ([], store)
  | _, store, [], some msg => ([errFrame msg], store)
  | i, store, line :: rest, fin =>
    match mirror_line parse (tss i) surl line store with
    | .ok store2 =>
      let r := relayGo parse tss surl (i + 1) store2 rest fin
      ((line ++ "\n") :: r.1, r.2)
    | .error emsg => ([line ++ "\n", errFrame emsg], store)

/-- `start_digest.generate` on a given upstream outcome, starting from the
current `digest_summaries` store. -/
def start_digest_generate (parse : String → Option JsonValue)
    (tss : Nat → String) (surl : String) (store : List DigestSummary) :
    UpstreamOutcome → List String × List DigestSummary
  | .ok lines => relayGo parse tss surl 0 store lines none
  | .err lines msg => relayGo parse tss surl 0 store lines (some msg)

/-- Does the mirroring step of this line raise (`AttributeError` on a
parsed non-object JSON payload)? -/
def mirror_raises (parse : String → Option JsonValue) (line : String) : Bool :=
  pyStartsWith line "data:" &&
    (match parse (pyStrip (strDrop line 5)) with
     | some (.obj _) => false
     | some _ => true
     | none => false)

/-- `start_monitor_sse` (`trio_client.py`): for each non-empty `data:`
line, the stripped remainder is parsed; invalid JSON is yielded as the
raw-text fallback event `{"raw": data_str}` instead of being discarded. -/
def monitor_event (parse : String → Option JsonValue) (line : String) :
    Option JsonValue :=
  if !(line == "") && pyStartsWith line "data:" then
    let data_str := pyStrip (strDrop line 5)
    some (match parse data_str with
          | some v => v
          | none => .obj [("raw", .str data_str)])
  else none

/-- The event sequence `start_monitor_sse` yields for a line sequence. -/
def start_monitor_sse_events (parse : String → Option JsonValue)
    (lines : List String) : List JsonValue :=
  lines.filterMap (monitor_event parse)

/-- The alert record `safety_check` builds after a successful
`trio.check_once`, with timestamp `ts` and fresh id `idv`. -/
def mkAlertRecord (idv ts stream_url condition : String)
    (result : CheckResult) : AlertRecord :=
  { id := idv
    timestamp := ts
    stream_url := stream_url
    condition := condition
    triggered := result.triggered
    explanation := result.explanation
    latency_ms := result.latency_ms
    danger_level := classify_danger result.triggered condition result.explanation }

/-- The success path of `safety_check`: build the record, insert it at
position 0 of `alert_history` and trim to the last 200. -/
def safety_check_effect (idv ts stream_url condition : String)
    (result : CheckResult) (alert_log : List AlertEntry) :
    AlertRecord × List AlertEntry :=
  let record := mkAlertRecord idv ts stream_url condition result
  (record, insertCapped 200 (.check record) alert_log)

/-- `job_id in active_monitors`. -/
def hasJob (m : Monitors) (k : String) : Bool :=
  m.any (fun p => p.1 == k)

/-- `active_monitors[k]` as an option. -/
def lookupJob : Monitors → String → Option JobMeta
  | [], _ => none
  | (k2, meta) :: rest, k => if k2 = k then some meta else lookupJob rest k

/-- `active_monitors[k] = v`: overwrite the existing entry or append. -/
def setMonitor : Monitors → String → JobMeta → Monitors
  | [], k, v => [(k, v)]
  | (k2, v2) :: rest, k, v =>
    if k2 = k then (k, v) :: rest else (k2, v2) :: setMonitor rest k v

/-- `active_monitors[k]["status"] = v`. -/
def setStatusJ : Monitors → String → JsonValue → Monitors
  | [], _, _ => []
  | (k2, meta) :: rest, j, v =>
    if k2 = j then (k2, { meta with status := v }) :: rest
    else (k2, meta) :: setStatusJ rest j v

/-- `start_monitor` success path (`app.py` lines 320-329): record the job
metadata under the upstream-reported `job_id`. -/
def start_monitor_update (m : Monitors) (job_id stream_url condition
    webhook_url : String) (status : JsonValue) (started_at : String) :
    Monitors :=
  setMonitor m job_id
    { job_id := job_id
      stream_url := stream_url
      condition := condition
      webhook_url := webhook_url
      status := status
      started_at := started_at }

/-- `stop_monitor` after a successful `trio.cancel_job` (`app.py` lines
344-345): mark the job stopped if it is known. -/
def stop_monitor_update (m : Monitors) (job_id : String) : Monitors :=
  if hasJob m job_id then setStatusJ m job_id (.str "stopped") else m

/-- `classify_danger` as called from the webhook receiver with raw JSON
payload values: `if not triggered` uses Python truthiness (so the
explanation is never touched for falsy triggers), and `.lower()` on a
non-string explanation raises `AttributeError`.  On the string path this
is exactly `classify_danger` (which ignores its condition argument). -/
def classify_danger_py (triggered condition explanation : JsonValue) :
    Except String String :=
  if pyTruthy triggered then
    match explanation with
    | .str e => .ok (classify_danger true "" e)
    | other =>
        .error ("AttributeError: " ++ pyTypeName other
                ++ " object has no attribute lower")
  else .ok "safe"

/-- The `watch_triggered` branch of `webhook_receiver` (`app.py` lines
391-409): classify, build the webhook alert record and insert it at
position 0 of `alert_history` — with NO trim in the source. -/
def watch_triggered_update (data : JsonValue) (idv : String)
    (timestamp source_url : JsonValue) (alerts : List AlertEntry) :
    Except String (List AlertEntry) :=
  match pyGet data "triggered" (.bool false) with
  | .error e => .error e
  | .ok trig =>
  match pyGet data "condition" (.str "") with
  | .error e => .error e
  | .ok cond =>
  match pyGet data "explanation" (.str "") with
  | .error e => .error e
  | .ok expl =>
  match classify_danger_py trig cond expl with
  | .error e => .error e
  | .ok danger =>
  match pyGet data "frame_b64" (.str "") with
  | .error e => .error e
  | .ok fb =>
  .ok (.webhook
    { id := idv
      timestamp := timestamp
      stream_url := source_url
      condition := cond
      triggered := trig
      explanation := expl
      latency_ms := 0
      danger_level := danger
      source := "webhook"
      frame_b64 := fb } :: alerts)

/-- The job-status branch of `webhook_receiver` (`app.py` lines 412-415):
on a `job_stopped`/`job_completed`/`job_failed` event, if the payload's
`job_id` is a known monitor, overwrite its `status` with the payload's
`status` value (default `"stopped"`). -/
def job_status_update (event_type data : JsonValue) (m : Monitors) :
    Except String Monitors :=
  if pyEqStr event_type "job_stopped" || pyEqStr event_type "job_completed"
      || pyEqStr event_type "job_failed" then
    match pyGet data "job_id" (.str "") with
    | .error e => .error e
    | .ok (.str j) =>
      if hasJob m j then
        match pyGet data "status" (.str "stopped") with
        | .error e => .error e
        | .ok v => .ok (setStatusJ m j v)
      else .ok m
    | .ok _ => .ok m
  else .ok m

/-- `webhook_receiver` (`app.py` lines 373-421) on the value of
`request.json or {}`, with fresh id `idv` and current time `now`
(`datetime.utcnow().isoformat()`).  The webhook-event record is inserted
at position 0 of `webhook_events` and trimmed to 200; the alert insert is
NOT trimmed. -/
def webhook_receiver (payload : JsonValue) (idv now : String)
    (st : AppState) : Except String AppState :=
  match pyGet payload "type" (.str "unknown") with
  | .error e => .error e
  | .ok event_type =>
  match pyGet payload "data" (.obj []) with
  | .error e => .error e
  | .ok data =>
  match pyGet payload "timestamp" (.str (now ++ "Z")) with
  | .error e => .error e
  | .ok timestamp =>
  match pyGet payload "source_url" (.str "") with
  | .error e => .error e
  | .ok source_url =>
  let event_record : WebhookEvent :=
    { id := idv
      received_at := now ++ "Z"
      type := event_type
      timestamp := timestamp
      source_url := source_url
      data := data }
  match (if pyEqStr event_type "watch_triggered" then
           watch_triggered_update data idv timestamp source_url st.alert_history
         else .ok st.alert_history) with
  | .error e => .error e
  | .ok alerts2 =>
  match job_status_update event_type data st.active_monitors with
  | .error e => .error e
  | .ok mons2 =>
  .ok { st with
        alert_history := alerts2
        active_monitors := mons2
        webhook_events := insertCapped 200 event_record st.webhook_events }

/-- Outcome of the underlying `check_once` call: a parsed success
response, an `HTTPError` from `raise_for_status` (carrying the error
body when `e.response.json()` parses, and `str(e)` as raw text), or any
other `RequestException`. -/
inductive CheckOutcome where
  | ok (result : CheckResult)
  | httpError (body : Option JsonValue) (errText : String)
  | requestError (msg : String)

/-- The dict `validate_stream` returns; `remediation`/`details` are
`none` when the corresponding key is absent. -/
structure ValidationResult where
  valid : Bool
  message : JsonValue
  remediation : Option JsonValue
  details : Option CheckResult

/-- `validate_stream`: success wraps the result; an `HTTPError` surfaces
`error_body.get("error", {}).get("message", str(e))` (and likewise
`remediation`), where `error_body` is `{}` if the body did not parse —
note `.get` raises `AttributeError` when the parsed body or its `error`
value is not a dict; any other `RequestException` yields a generic
invalid result. -/
def validate_stream : CheckOutcome → Except String ValidationResult
  | .ok r =>
    .ok { valid := true
          message := .str "Stream is live and accessible"
          remediation := none
          details := some r }
  | .httpError body errText =>
    let error_body : JsonValue := body.getD (.obj [])
    match pyGet error_body "error" (.obj []) with
    | .error e => .error e
    | .ok ev1 =>
    match pyGet ev1 "message" (.str errText) with
    | .error e => .error e
    | .ok msg =>
    match pyGet error_body "error" (.obj []) with
    | .error e => .error e
    | .ok ev2 =>
    match pyGet ev2 "remediation" (.str "") with
    | .error e => .error e
    | .ok rem =>
    .ok { valid := false
          message := msg
          remediation := some rem
          details := none }
  | .requestError m =>
    .ok { valid := false
          message := .str m
          remediation := none
          details := none }

/-- A `json.loads` oracle under which every payload parses to the JSON
object `{"type": "summary"}`. -/
def parseSummaryOracle : String → Option JsonValue :=
  fun _ => some (.obj [("type", .str "summary")])

/-- A `json.loads` oracle under which `"123"` parses to the JSON number
`123` (exactly as `json.loads("123")` does) and nothing else parses. -/
def badParse : String → Option JsonValue :=
  fun s => if s = "123" then some (.num 123) else none

/-- C9 counterexample input: a `job_failed` webhook delivery whose
payload carries the arbitrary status string `"exploded"`. -/
def statusCexPayload : JsonValue :=
  .obj [("type", .str "job_failed"),
        ("data", .obj [("job_id", .str "j1"), ("status", .str "exploded")])]

/-- C9 counterexample state: one running monitor `j1`. -/
def statusCexState : AppState :=
  { alert_history := []
    webhook_events := []
    digest_summaries := []
    active_monitors := [("j1",
      { job_id := "j1", stream_url := "s", condition := "c",
        webhook_url := "w", status := .str "running",
        started_at := "t0" })] }

/-- The status of `j1` after `webhook_receiver` handles the payload. -/
def statusAfterCex : Option JsonValue :=
  match webhook_receiver statusCexPayload "e1" "t1" statusCexState with
  | .ok st => (lookupJob st.active_monitors "j1").map JobMeta.status
  | .error _ => none

/-! ## Theorems -/

theorem startsWithChars_iff (p s : List Char) :
    startsWithChars p s = true ↔ ∃ t, s = p ++ t := by
  induction p generalizing s with
  | nil =>
    simp [startsWithChars]
  | cons a as ih =>
    cases s with
    | nil =>
      simp [startsWithChars]
    | cons b bs =>
      simp only [startsWithChars, Bool.and_eq_true, beq_iff_eq, ih]
      constructor
      · rintro ⟨rfl, t, rfl⟩
        exact ⟨t, rfl⟩
      · rintro ⟨t, h⟩
        injection h with h1 h2
        exact ⟨h1.symm, t, h2⟩

theorem subChars_iff (n s : List Char) :
    subChars n s = true ↔ ∃ p q, s = p ++ n ++ q := by
  induction s with
  | nil =>
    rw [subChars, startsWithChars_iff]
    constructor
    · rintro ⟨t, h⟩
      obtain ⟨rfl, rfl⟩ := List.append_eq_nil.mp h.symm
      exact ⟨[], [], rfl⟩
    · rintro ⟨p, q, h⟩
      obtain ⟨h1, rfl⟩ := List.append_eq_nil.mp h.symm
      obtain ⟨rfl, rfl⟩ := List.append_eq_nil.mp h1
      exact ⟨[], rfl⟩
  | cons c rest ih =>
    rw [subChars, Bool.or_eq_true, startsWithChars_iff, ih]
    constructor
    · rintro (⟨t, h⟩ | ⟨p, q, h⟩)
      · exact ⟨[], t, h⟩
      · exact ⟨c :: p, q, congrArg (List.cons c) h⟩
    · rintro ⟨p, q, h⟩
      cases p with
      | nil =>
        exact Or.inl ⟨q, h⟩
      | cons x xs =>
        injection h with h1 h2
        exact Or.inr ⟨xs, q, h2⟩

theorem classify_high_iff (c e : String) :
    classify_danger true c e = "high" ↔ keywordHit e := by
  have hmain : classify_danger true c e
      = (if high_keywords.any (fun kw => subChars kw.data (pyLower e).data)
         then "high" else "medium") := rfl
  rw [hmain]
  by_cases h : high_keywords.any (fun kw => subChars kw.data (pyLower e).data) = true
  · rw [if_pos h]
    simp only [List.any_eq_true] at h
    obtain ⟨kw, hmem, hsub⟩ := h
    exact iff_of_true rfl ⟨kw, hmem, (subChars_iff _ _).mp hsub⟩
  · rw [if_neg h]
    refine iff_of_false (by decide) ?_
    rintro ⟨kw, hmem, p, q, hpq⟩
    exact h (List.any_eq_true.mpr ⟨kw, hmem, (subChars_iff _ _).mpr ⟨p, q, hpq⟩⟩)

theorem classify_medium_iff (c e : String) :
    classify_danger true c e = "medium" ↔ ¬ keywordHit e := by
  have hmain : classify_danger true c e
      = (if high_keywords.any (fun kw => subChars kw.data (pyLower e).data)
         then "high" else "medium") := rfl
  rw [hmain]
  by_cases h : high_keywords.any (fun kw => subChars kw.data (pyLower e).data) = true
  · rw [if_pos h]
    simp only [List.any_eq_true] at h
    obtain ⟨kw, hmem, hsub⟩ := h
    exact iff_of_false (by decide)
      (fun hn => hn ⟨kw, hmem, (subChars_iff _ _).mp hsub⟩)
  · rw [if_neg h]
    refine iff_of_true rfl ?_
    rintro ⟨kw, hmem, p, q, hpq⟩
    exact h (List.any_eq_true.mpr ⟨kw, hmem, (subChars_iff _ _).mpr ⟨p, q, hpq⟩⟩)

theorem insertCapped_head (cap : Nat) (hcap : 0 < cap) (r : α) (log : List α) :
    (insertCapped cap r log).head? = some r := by
  show (if (r :: log).length > cap then (r :: log).dropLast else r :: log).head?
        = some r
  split
  next h =>
    cases log with
    | nil => simp at h; omega
    | cons x xs => rfl
  next => rfl

theorem insertCapped_take (cap : Nat) (r : α) (l : List α) :
    insertCapped cap r (l.take cap) = (r :: l).take cap := by
  show (if (r :: l.take cap).length > cap then (r :: l.take cap).dropLast
        else r :: l.take cap) = (r :: l).take cap
  by_cases hl : l.length < cap
  · have htake : l.take cap = l := List.take_of_length_le (Nat.le_of_lt hl)
    rw [htake, if_neg (by simp; omega)]
    exact (List.take_of_length_le (by simp; omega)).symm
  · have hlen : (l.take cap).length = cap := by
      rw [List.length_take]; omega
    rw [if_pos (by simp [hlen])]
    rw [List.dropLast_eq_take, List.length_cons, hlen]
    cases cap with
    | zero => simp
    | succ m =>
      have h1 : m + 1 + 1 - 1 = m + 1 := rfl
      rw [h1, List.take_succ_cons, List.take_succ_cons, List.take_take,
          Nat.min_eq_left (Nat.le_succ m)]

theorem insertedList_length (f : Nat → α) (n : Nat) :
    (insertedList f n).length = n := by
  induction n with
  | zero => rfl
  | succ m ih => simp [insertedList, ih]

theorem iterCapped_eq_take (f : Nat → α) (n : Nat) :
    iterCapped f n = (insertedList f n).take 200 := by
  induction n with
  | zero => rfl
  | succ m ih =>
    show insertCapped 200 (f m) (iterCapped f m) = _
    rw [ih, insertCapped_take]
    rfl

theorem iterCapped_length (f : Nat → α) (n : Nat) :
    (iterCapped f n).length = min n 200 := by
  rw [iterCapped_eq_take, List.length_take, insertedList_length, Nat.min_comm]

theorem mirror_line_eq_data (parse : String → Option JsonValue)
    (ts surl line : String) (store : List DigestSummary)
    (hs : pyStartsWith line "data:" = true) :
    mirror_line parse ts surl line store
      = (match parse (pyStrip (strDrop line 5)) with
         | none => .ok store
         | some (.obj fields) =>
             if isSummaryType fields then
               .ok ({ timestamp := ts,
                      summary := (lookupField fields "summary").getD
                        (.str (pyStrip (strDrop line 5))),
                      stream_url := surl } :: store)
             else .ok store
         | some other =>
             .error ("AttributeError: " ++ pyTypeName other
                     ++ " object has no attribute get")) := by
  unfold mirror_line
  rw [if_pos hs]

theorem mirror_line_eq_other (parse : String → Option JsonValue)
    (ts surl line : String) (store : List DigestSummary)
    (hs : pyStartsWith line "data:" = false) :
    mirror_line parse ts surl line store = .ok store := by
  unfold mirror_line
  rw [hs]
  rfl

theorem mirror_line_ok (parse : String → Option JsonValue)
    (ts surl line : String) (store : List DigestSummary)
    (h : mirror_raises parse line = false) :
    ∃ store2, mirror_line parse ts surl line store = .ok store2 := by
  unfold mirror_raises at h
  cases hs : pyStartsWith line "data:" with
  | false => exact ⟨store, mirror_line_eq_other parse ts surl line store hs⟩
  | true =>
    rw [hs, Bool.true_and] at h
    rw [mirror_line_eq_data parse ts surl line store hs]
    cases hp : parse (pyStrip (strDrop line 5)) with
    | none => exact ⟨store, rfl⟩
    | some v =>
      cases v with
      | obj fields =>
        by_cases hsum : isSummaryType fields = true
        · exact ⟨_, if_pos hsum⟩
        · exact ⟨store, if_neg hsum⟩
      | arr elems => rw [hp] at h; exact absurd h (by simp)
      | str s => rw [hp] at h; exact absurd h (by simp)
      | num n => rw [hp] at h; exact absurd h (by simp)
      | bool b => rw [hp] at h; exact absurd h (by simp)
      | null => rw [hp] at h; exact absurd h (by simp)

/-- When no line's mirroring raises, the downstream frame sequence is the
upstream line sequence in order (each line plus its terminator), followed
by exactly one error frame when the upstream iteration raised. -/
theorem relayGo_map (parse : String → Option JsonValue) (tss : Nat → String)
    (surl : String) (lines : List String) (i : Nat)
    (store : List DigestSummary) (fin : Option String)
    (h : ∀ l ∈ lines, mirror_raises parse l = false) :
    (relayGo parse tss surl i store lines fin).1
      = lines.map (fun l => l ++ "\n")
        ++ (match fin with | none => [] | some m => [errFrame m]) := by
  induction lines generalizing i store with
  | nil => cases fin with
    | none => rfl
    | some m => rfl
  | cons l rest ih =>
    obtain ⟨s2, hs2⟩ := mirror_line_ok parse (tss i) surl l store
      (h l (by simp))
    show (match mirror_line parse (tss i) surl l store with
          | .ok store2 =>
            let r := relayGo parse tss surl (i + 1) store2 rest fin
            ((l ++ "\n") :: r.1, r.2)
          | .error emsg => ([l ++ "\n", errFrame emsg], store)).1 = _
    rw [hs2]
    show (l ++ "\n") :: (relayGo parse tss surl (i + 1) s2 rest fin).1 = _
    rw [ih (i + 1) s2 (fun x hx => h x (by simp [hx]))]
    rfl

/-! ## Remaining helper lemmas -/

theorem strData_append (a b : String) : (a ++ b).data = a.data ++ b.data := rfl

theorem relay_summary_growth (tss : Nat → String) (surl : String) :
    ∀ (n i : Nat) (store : List DigestSummary),
    (relayGo parseSummaryOracle tss surl i store
        (List.replicate n "data: x") none).2.length = store.length + n := by
  intro n
  induction n with
  | zero => intro i store; rfl
  | succ m ih =>
    intro i store
    rw [List.replicate_succ]
    have hstep : (relayGo parseSummaryOracle tss surl i store
        ("data: x" :: List.replicate m "data: x") none).2
        = (relayGo parseSummaryOracle tss surl (i + 1)
            ({ timestamp := tss i, summary := .str "x", stream_url := surl }
              :: store) (List.replicate m "data: x") none).2 := rfl
    rw [hstep, ih]
    simp only [List.length_cons]
    omega

theorem watch_triggered_update_length (data : JsonValue) (idv : String)
    (timestamp source_url : JsonValue) (alerts alerts2 : List AlertEntry)
    (hw : watch_triggered_update data idv timestamp source_url alerts
            = .ok alerts2) :
    alerts2.length = alerts.length + 1 := by
  unfold watch_triggered_update at hw
  repeat' split at hw
  all_goals first
    | exact Except.noConfusion hw
    | (injection hw with h; rw [← h]; rfl)

theorem webhook_events_capped (payload : JsonValue) (idv now : String)
    (st st2 : AppState)
    (hw : webhook_receiver payload idv now st = .ok st2) :
    ∃ ev, st2.webhook_events = insertCapped 200 ev st.webhook_events := by
  unfold webhook_receiver at hw
  repeat' split at hw
  all_goals first
    | exact Except.noConfusion hw
    | (injection hw with h; exact ⟨_, by rw [← h]⟩)

/-- C1: for every input, `classify_danger` returns `"safe"` whenever
`triggered` is false (whatever the condition and explanation are); when
`triggered` is true it returns `"high"` exactly when the lower-cased
explanation contains a member of the fixed keyword set as a substring,
and `"medium"` otherwise — in particular an empty explanation with
`triggered = true` yields `"medium"`. -/
theorem classify_danger_spec (c e : String) :
    classify_danger false c e = "safe" ∧
    (classify_danger true c e = "high" ↔ keywordHit e) ∧
    (classify_danger true c e = "medium" ↔ ¬ keywordHit e) ∧
    classify_danger true c "" = "medium" :=
  ⟨rfl, classify_high_iff c e, classify_medium_iff c e, rfl⟩

/-- C1 witness at a concrete input: the keyword `climbing` upgrades a
triggered check to `"high"`, and an untriggered check is `"safe"`. -/
theorem classify_danger_spec_witness :
    classify_danger false "x" "Child is Climbing on a shelf" = "safe" ∧
    classify_danger true "x" "Child is Climbing on a shelf" = "high" :=
  ⟨(classify_danger_spec "x" "Child is Climbing on a shelf").1,
   (classify_danger_spec "x" "Child is Climbing on a shelf").2.1.mpr
     ⟨"climbing", by decide,
      "child is ".data, " on a shelf".data, by decide⟩⟩

/-- C8: `classify_danger` ignores its `condition` argument — for any two
condition strings the tier is identical; being a pure Lean function of
its arguments, it is deterministic and has no effect on any program
state. -/
theorem classify_danger_condition_free (t : Bool) (c1 c2 e : String) :
    classify_danger t c1 e = classify_danger t c2 e := rfl

/-- C10: the keyword test is substring containment, not whole-word
matching: any explanation embedding `pool` inside a longer word (or any
text) is `"high"`, and so are `windows`, `poolside` and `electricity`. -/
theorem classify_danger_substring (c a b : String) :
    classify_danger true c (a ++ "pool" ++ b) = "high" ∧
    classify_danger true c "Closed the windows" = "high" ∧
    classify_danger true c "child at poolside" = "high" ∧
    classify_danger true c "touching the electricity box" = "high" := by
  refine ⟨?_, rfl, rfl, rfl⟩
  apply (classify_high_iff c _).mpr
  refine ⟨"pool", by decide, (pyLower a).data, (pyLower b).data, ?_⟩
  show ((a ++ "pool" ++ b).data.map pyCharLower) = _
  rw [strData_append, strData_append, List.map_append, List.map_append]
  rw [show "pool".data.map pyCharLower = "pool".data from by decide]
  rfl

/-- C2 (amended): the insert-then-trim sites (`safety_check` into
`alert_history`, `webhook_receiver` into `webhook_events`) keep the store
at `min(N, 200)` entries, newest first, trimming from the tail; but the
`webhook_receiver` insert into `alert_history` and the digest relay
insert into `digest_summaries` are NOT trimmed, so those stores grow by
one on every insertion without bound. -/
theorem bounded_log_spec (r : AlertEntry) (log : List AlertEntry)
    (f : Nat → AlertEntry) (n : Nat) (tss : Nat → String)
    (surl idv ts stream_url condition : String) (result : CheckResult) :
    (log.length ≤ 200 →
      (insertCapped 200 r log).length = min (log.length + 1) 200 ∧
      insertCapped 200 r log = (r :: log).take 200) ∧
    (insertCapped 200 r log).head? = some r ∧
    (iterCapped f n).length = min n 200 ∧
    (safety_check_effect idv ts stream_url condition result log).2
      = insertCapped 200
          (.check (safety_check_effect idv ts stream_url condition result log).1)
          log ∧
    (∀ (data timestamp source_url : JsonValue)
       (alerts alerts2 : List AlertEntry),
      watch_triggered_update data idv timestamp source_url alerts
          = .ok alerts2 →
      alerts2.length = alerts.length + 1) ∧
    (∀ (payload : JsonValue) (now : String) (st st2 : AppState),
      webhook_receiver payload idv now st = .ok st2 →
      ∃ ev, st2.webhook_events = insertCapped 200 ev st.webhook_events) ∧
    (relayGo parseSummaryOracle tss surl 0 []
        (List.replicate n "data: x") none).2.length = n := by
  refine ⟨?_, insertCapped_head 200 (by omega) r log, iterCapped_length f n,
          rfl,
          fun data timestamp source_url alerts alerts2 hw =>
            watch_triggered_update_length data idv timestamp source_url
              alerts alerts2 hw,
          fun payload now st st2 hw =>
            webhook_events_capped payload idv now st st2 hw,
          ?_⟩
  · intro h
    have htake : log.take 200 = log := List.take_of_length_le h
    have heq := insertCapped_take 200 r log
    rw [htake] at heq
    refine ⟨?_, heq⟩
    rw [heq, List.length_take, List.length_cons, Nat.min_comm]
  · have := relay_summary_growth tss surl n 0 []
    simpa using this

/-- C2 witness at concrete inputs: one capped insertion into an empty
store has length `min 1 200 = 1` and sits at position 0. -/
theorem bounded_log_spec_witness :
    (insertCapped 200
        (AlertEntry.check ⟨"i", "t", "s", "c", false, "", 0, "safe"⟩)
        []).length = min 1 200 :=
  ((bounded_log_spec
      (AlertEntry.check ⟨"i", "t", "s", "c", false, "", 0, "safe"⟩) []
      (fun _ => AlertEntry.check ⟨"i", "t", "s", "c", false, "", 0, "safe"⟩)
      0 (fun _ => "t") "u" "i" "t" "s" "c" ⟨false, "", 0⟩).1
    (by decide)).1

/-- C2 counterexample: 201 summary frames relayed into an initially empty
`digest_summaries` leave it at length 201 — the digest relay never trims,
so the length is not `min(201, 200) = 200` and exceeds the cap. -/
theorem bounded_log_cex :
    (start_digest_generate parseSummaryOracle (fun _ => "t") "u" []
        (.ok (List.replicate 201 "data: x"))).2.length = 201 ∧
    ¬ ((start_digest_generate parseSummaryOracle (fun _ => "t") "u" []
        (.ok (List.replicate 201 "data: x"))).2.length ≤ 200) := by
  have h := relay_summary_growth (fun _ => "t") "u" 201 0 []
  have h2 : (start_digest_generate parseSummaryOracle (fun _ => "t") "u" []
      (.ok (List.replicate 201 "data: x"))).2.length = 201 := by
    simpa using h
  exact ⟨h2, by rw [h2]; omega⟩

/-- C3 (amended): the downstream frame sequence equals the upstream line
sequence in order (each line plus its terminator), for every upstream
sequence in which no `data:` line parses to a non-object JSON value.  (A
`data:` line whose payload parses to a non-object JSON value is still
forwarded, but `parsed.get` then raises, the relay emits one synthetic
error frame and stops — see the counterexample.) -/
theorem relay_order_spec (parse : String → Option JsonValue)
    (tss : Nat → String) (surl : String) (store : List DigestSummary)
    (raw : List String)
    (h : ∀ l ∈ digest_sse_lines raw, mirror_raises parse l = false) :
    (start_digest_generate parse tss surl store
        (.ok (digest_sse_lines raw))).1
      = (digest_sse_lines raw).map (fun l => l ++ "\n") := by
  have := relayGo_map parse tss surl (digest_sse_lines raw) 0 store none h
  simpa using this

/-- C3 witness: upstream `[a, b, c]` comes out downstream as exactly
`[a, b, c]` (with terminators), under an oracle where nothing parses. -/
theorem relay_order_spec_witness :
    (start_digest_generate (fun _ => none) (fun _ => "t") "u" []
        (.ok (digest_sse_lines ["a", "b", "c"]))).1
      = (digest_sse_lines ["a", "b", "c"]).map (fun l => l ++ "\n") :=
  relay_order_spec (fun _ => none) (fun _ => "t") "u" [] ["a", "b", "c"]
    (by decide)

/-- C3 counterexample: the upstream line `data: 123` parses as the JSON
number 123 (`json.loads("123")`), so the mirroring step's `parsed.get`
raises; the relay forwards the line and then emits a synthetic error
frame and stops — the downstream sequence is NOT the upstream sequence. -/
theorem relay_order_cex :
    (start_digest_generate badParse (fun _ => "t") "u" []
        (.ok ["data: 123"])).1
      = ["data: 123" ++ "\n",
         errFrame "AttributeError: int object has no attribute get"] ∧
    (start_digest_generate badParse (fun _ => "t") "u" []
        (.ok ["data: 123"])).1
      ≠ ["data: 123" ++ "\n"] :=
  ⟨rfl, by decide⟩

/-- C4 (amended): when the upstream raises `msg` after emitting `[a, b]`
and neither line's mirroring raises, downstream observes exactly
`[a, b]` followed by one synthetic error frame whose SSE payload is the
JSON object with `type: "error"` and `message` carrying the cause, and
the relay then terminates. -/
theorem relay_error_spec (parse : String → Option JsonValue)
    (tss : Nat → String) (surl : String) (store : List DigestSummary)
    (a b msg : String)
    (ha : mirror_raises parse a = false)
    (hb : mirror_raises parse b = false) :
    (start_digest_generate parse tss surl store (.err [a, b] msg)).1
      = [a ++ "\n", b ++ "\n", errFrame msg] ∧
    errFrame msg
      = "data: \x7b\"type\":\"error\",\"message\":\"" ++ msg
        ++ "\"\x7d\n\n" := by
  have hab : ∀ l ∈ [a, b], mirror_raises parse l = false := by
    intro l hl
    rcases List.mem_cons.mp hl with rfl | hl2
    · exact ha
    · rcases List.mem_cons.mp hl2 with rfl | hl3
      · exact hb
      · cases hl3
  refine ⟨?_, rfl⟩
  have := relayGo_map parse tss surl [a, b] 0 store (some msg) hab
  simpa using this

/-- C4 witness at concrete inputs. -/
theorem relay_error_spec_witness :
    (start_digest_generate (fun _ => none) (fun _ => "t") "u" []
        (.err ["a", "b"] "boom")).1
      = ["a" ++ "\n", "b" ++ "\n", errFrame "boom"] :=
  (relay_error_spec (fun _ => none) (fun _ => "t") "u" [] "a" "b" "boom"
    (by decide) (by decide)).1

/-- C4 counterexample: the upstream raises "boom" after emitting
`["data: 123", "x"]`, but the first line's mirroring already raises: the
second line is never forwarded and the error frame carries the
`AttributeError`, not the upstream cause. -/
theorem relay_error_cex :
    (start_digest_generate badParse (fun _ => "t") "u" []
        (.err ["data: 123", "x"] "boom")).1
      = ["data: 123" ++ "\n",
         errFrame "AttributeError: int object has no attribute get"] ∧
    (start_digest_generate badParse (fun _ => "t") "u" []
        (.err ["data: 123", "x"] "boom")).1
      ≠ ["data: 123" ++ "\n", "x" ++ "\n", errFrame "boom"] :=
  ⟨rfl, by decide⟩

/-- C5: a `data:` line whose payload is not valid JSON is never fatal: in
the digest relay it is forwarded unchanged, mutates no local store and
the relay continues with the remaining lines; in the monitor SSE client
it is yielded as the raw-text fallback event `{"raw": data_str}` instead
of being discarded. -/
theorem malformed_payload_spec (parse : String → Option JsonValue)
    (tss : Nat → String) (surl ts : String) (i : Nat)
    (store : List DigestSummary) (line : String) (rest : List String)
    (fin : Option String)
    (hd : pyStartsWith line "data:" = true)
    (hp : parse (pyStrip (strDrop line 5)) = none) :
    mirror_line parse ts surl line store = .ok store ∧
    (relayGo parse tss surl i store (line :: rest) fin).1
      = (line ++ "\n") :: (relayGo parse tss surl (i + 1) store rest fin).1 ∧
    (relayGo parse tss surl i store (line :: rest) fin).2
      = (relayGo parse tss surl (i + 1) store rest fin).2 ∧
    monitor_event parse line
      = some (.obj [("raw", .str (pyStrip (strDrop line 5)))]) := by
  have hm : ∀ t : String, mirror_line parse t surl line store = .ok store := by
    intro t
    rw [mirror_line_eq_data parse t surl line store hd, hp]
  have hne : (line == "") = false := by
    cases hline : line == ""
    · rfl
    · exfalso
      have : line = "" := eq_of_beq hline
      subst this
      exact absurd hd (by decide)
  refine ⟨hm ts, ?_, ?_, ?_⟩
  · show (match mirror_line parse (tss i) surl line store with
          | .ok store2 =>
            let r := relayGo parse tss surl (i + 1) store2 rest fin
            ((line ++ "\n") :: r.1, r.2)
          | .error emsg => ([line ++ "\n", errFrame emsg], store)).1 = _
    rw [hm (tss i)]
  · show (match mirror_line parse (tss i) surl line store with
          | .ok store2 =>
            let r := relayGo parse tss surl (i + 1) store2 rest fin
            ((line ++ "\n") :: r.1, r.2)
          | .error emsg => ([line ++ "\n", errFrame emsg], store)).2 = _
    rw [hm (tss i)]
  · simp [monitor_event, hne, hd, hp]

/-- C5 witness at a concrete input: `data: oops` does not parse, is
mirrored into no store, forwarded unchanged and yielded as the raw-text
fallback. -/
theorem malformed_payload_spec_witness :
    mirror_line (fun _ => none) "t0" "u" "data: oops" [] = .ok [] ∧
    monitor_event (fun _ => none) "data: oops"
      = some (.obj [("raw", .str (pyStrip (strDrop "data: oops" 5)))]) :=
  ⟨(malformed_payload_spec (fun _ => none) (fun _ => "t") "u" "t0" 0 []
      "data: oops" [] none (by decide) rfl).1,
   (malformed_payload_spec (fun _ => none) (fun _ => "t") "u" "t0" 0 []
      "data: oops" [] none (by decide) rfl).2.2.2⟩

/-- C6: a successful one-shot check returning
`{triggered: true, explanation: "Child near pool edge", latency_ms: 420}`
produces an alert record whose danger level is `"high"` (keyword `pool`),
whose fields copy the inputs and response, and which sits at position 0
of the updated alert store. -/
theorem safety_check_pool_spec (idv ts surl cond : String)
    (log : List AlertEntry) :
    (safety_check_effect idv ts surl cond
        ⟨true, "Child near pool edge", 420⟩ log).1.danger_level = "high" ∧
    (safety_check_effect idv ts surl cond
        ⟨true, "Child near pool edge", 420⟩ log).1.triggered = true ∧
    (safety_check_effect idv ts surl cond
        ⟨true, "Child near pool edge", 420⟩ log).1.explanation
      = "Child near pool edge" ∧
    (safety_check_effect idv ts surl cond
        ⟨true, "Child near pool edge", 420⟩ log).1.latency_ms = 420 ∧
    (safety_check_effect idv ts surl cond
        ⟨true, "Child near pool edge", 420⟩ log).1.stream_url = surl ∧
    (safety_check_effect idv ts surl cond
        ⟨true, "Child near pool edge", 420⟩ log).1.condition = cond ∧
    (safety_check_effect idv ts surl cond
        ⟨true, "Child near pool edge", 420⟩ log).2.head?
      = some (.check (safety_check_effect idv ts surl cond
          ⟨true, "Child near pool edge", 420⟩ log).1) :=
  ⟨rfl, rfl, rfl, rfl, rfl, rfl,
   insertCapped_head 200 (by omega) _ log⟩

/-- C7 (amended): `validate_stream` wraps a successful check as
`valid: true`; any `RequestException` yields the generic
`{valid: false, message: str(e)}`; an `HTTPError` (any non-2xx, raised by
`raise_for_status`) surfaces `error.message` / `error.remediation` from
the parsed body, falling back to `str(e)` when the body is missing or
unparseable — but it RAISES `AttributeError` instead of returning when
the parsed body is not a JSON object (see the counterexample), so "never
raises" does not hold unconditionally. -/
theorem validate_stream_spec (r : CheckResult) (errText m : String)
    (efields : List (String × JsonValue)) :
    validate_stream (.ok r)
      = .ok { valid := true
              message := .str "Stream is live and accessible"
              remediation := none
              details := some r } ∧
    validate_stream (.requestError m)
      = .ok { valid := false
              message := .str m
              remediation := none
              details := none } ∧
    validate_stream (.httpError none errText)
      = .ok { valid := false
              message := .str errText
              remediation := some (.str "")
              details := none } ∧
    validate_stream (.httpError (some (.obj [])) errText)
      = .ok { valid := false
              message := .str errText
              remediation := some (.str "")
              details := none } ∧
    validate_stream (.httpError (some (.obj [("error", .obj efields)]))
        errText)
      = .ok { valid := false
              message := (lookupField efields "message").getD (.str errText)
              remediation := some ((lookupField efields "remediation").getD
                (.str ""))
              details := none } :=
  ⟨rfl, rfl, rfl, rfl, rfl⟩

/-- C7 counterexample: a non-2xx response whose body parses to the JSON
array `[]` makes `error_body.get` raise `AttributeError` — the function
does not return a `{valid: false}` result there, contradicting "it never
raises". -/
theorem validate_stream_cex :
    validate_stream (.httpError (some (.arr [])) "404 Client Error")
      = .error "AttributeError: list object has no attribute get" ∧
    validate_stream (.httpError (some (.obj [("error", .str "nope")]))
        "404 Client Error")
      = .error "AttributeError: str object has no attribute get" :=
  ⟨rfl, rfl⟩

/-! ## C9 -/

theorem setStatusJ_lookup_some (j k : String) (v : JsonValue)
    (m : Monitors) :
    ∀ (meta : JobMeta), lookupJob m k = some meta →
    lookupJob (setStatusJ m j v) k
      = some (if k = j then { meta with status := v } else meta) := by
  induction m with
  | nil =>
    intro meta h
    simp [lookupJob] at h
  | cons hd rest ih =>
    obtain ⟨k2, meta2⟩ := hd
    intro meta h
    rw [lookupJob] at h
    rw [setStatusJ]
    by_cases hkj : k2 = j
    · rw [if_pos hkj, lookupJob]
      by_cases hk : k2 = k
      · rw [if_pos hk] at h
        rw [if_pos hk]
        injection h with h2
        subst h2
        rw [if_pos (hk.symm.trans hkj)]
      · rw [if_neg hk] at h
        rw [if_neg hk, if_neg (fun he => hk (hkj.trans he.symm))]
        exact h
    · rw [if_neg hkj, lookupJob]
      by_cases hk : k2 = k
      · rw [if_pos hk] at h
        rw [if_pos hk]
        injection h with h2
        subst h2
        rw [if_neg (fun he => hkj (hk.trans he))]
      · rw [if_neg hk] at h
        rw [if_neg hk]
        exact ih meta h

theorem setStatusJ_lookup_none (j k : String) (v : JsonValue)
    (m : Monitors) (h : lookupJob m k = none) :
    lookupJob (setStatusJ m j v) k = none := by
  induction m with
  | nil => exact h
  | cons hd rest ih =>
    obtain ⟨k2, meta2⟩ := hd
    rw [lookupJob] at h
    rw [setStatusJ]
    by_cases hk : k2 = k
    · rw [if_pos hk] at h
      exact absurd h (by simp)
    · rw [if_neg hk] at h
      by_cases hkj : k2 = j
      · rw [if_pos hkj, lookupJob, if_neg hk]
        exact h
      · rw [if_neg hkj, lookupJob, if_neg hk]
        exact ih h

theorem setMonitor_lookup (j : String) (val : JobMeta) (k : String)
    (m : Monitors) :
    lookupJob (setMonitor m j val) k
      = if k = j then some val else lookupJob m k := by
  induction m with
  | nil =>
    show (if j = k then some val else none)
      = if k = j then some val else none
    by_cases hk : k = j
    · rw [if_pos hk, if_pos hk.symm]
    · rw [if_neg hk, if_neg (fun he => hk he.symm)]
  | cons hd rest ih =>
    obtain ⟨k2, meta2⟩ := hd
    rw [setMonitor]
    by_cases hkj : k2 = j
    · rw [if_pos hkj, lookupJob, lookupJob]
      by_cases hk : k = j
      · rw [if_pos (hk.symm : j = k), if_pos hk]
      · rw [if_neg (fun he => hk he.symm), if_neg hk,
            if_neg (fun he : k2 = k => hk (he.symm.trans hkj))]
    · rw [if_neg hkj, lookupJob, lookupJob]
      by_cases hk : k2 = k
      · rw [if_pos hk, if_pos hk,
            if_neg (fun he : k = j => hkj (hk.trans he))]
      · rw [if_neg hk, if_neg hk, ih]

theorem job_status_update_cases (etype data : JsonValue) (m m2 : Monitors)
    (h : job_status_update etype data m = .ok m2) :
    m2 = m ∨ ∃ j v, hasJob m j = true ∧ m2 = setStatusJ m j v := by
  unfold job_status_update at h
  repeat' split at h
  all_goals first
    | exact Except.noConfusion h
    | (injection h with h2; exact Or.inl h2.symm)
    | (injection h with h2;
       exact Or.inr ⟨_, _, by assumption, h2.symm⟩)

/-- C9 (amended): entries of `active_monitors` are never deleted —
`stop_monitor`, the webhook job-status branch and even a re-`start`
preserve every existing key — and the listed mutators change only the
`status` field of the targeted entry: `stop_monitor` sets it to
`"stopped"`, while the webhook branch sets it to the event payload's
`status` value (default `"stopped"`), which is NOT restricted to
`stopped|completed|failed` (see the counterexample).  All other fields
(`job_id`, `stream_url`, `condition`, `webhook_url`, `started_at`) are
unchanged by these mutators. -/
theorem monitors_frame_spec (m m2 : Monitors) (j k : String)
    (v : JsonValue) (meta val0 : JobMeta) (etype data : JsonValue) :
    (lookupJob m k = some meta →
      lookupJob (setStatusJ m j v) k
        = some (if k = j then { meta with status := v } else meta)) ∧
    (lookupJob m k = none → lookupJob (setStatusJ m j v) k = none) ∧
    (hasJob m j = false → stop_monitor_update m j = m) ∧
    (hasJob m j = true →
      stop_monitor_update m j = setStatusJ m j (.str "stopped")) ∧
    (job_status_update etype data m = .ok m2 →
      m2 = m ∨ ∃ j2 v2, hasJob m j2 = true ∧ m2 = setStatusJ m j2 v2) ∧
    lookupJob (setMonitor m j val0) k
      = (if k = j then some val0 else lookupJob m k) :=
  ⟨fun h => setStatusJ_lookup_some j k v m meta h,
   fun h => setStatusJ_lookup_none j k v m h,
   fun h => by rw [stop_monitor_update, h]; rfl,
   fun h => by rw [stop_monitor_update, h]; rfl,
   fun h => job_status_update_cases etype data m m2 h,
   setMonitor_lookup j val0 k m⟩

/-- C9 witness at concrete inputs: marking a known job stopped rewrites
only its status. -/
theorem monitors_frame_spec_witness :
    lookupJob
      (setStatusJ
        [("j1", { job_id := "j1", stream_url := "s", condition := "c",
                  webhook_url := "w", status := JsonValue.str "running",
                  started_at := "t0" })] "j1" (.str "stopped")) "j1"
      = some { job_id := "j1", stream_url := "s", condition := "c",
               webhook_url := "w", status := JsonValue.str "stopped",
               started_at := "t0" } := by
  have h := (monitors_frame_spec
      [("j1", { job_id := "j1", stream_url := "s", condition := "c",
                webhook_url := "w", status := JsonValue.str "running",
                started_at := "t0" })] [] "j1" "j1" (.str "stopped")
      { job_id := "j1", stream_url := "s", condition := "c",
        webhook_url := "w", status := JsonValue.str "running",
        started_at := "t0" }
      { job_id := "j1", stream_url := "s", condition := "c",
        webhook_url := "w", status := JsonValue.str "running",
        started_at := "t0" } .null .null).1 rfl
  simpa using h

/-- C9 counterexample: the webhook receiver sets the monitor's status to
the payload's arbitrary `status` value `"exploded"`, which is none of
`stopped`, `completed`, `failed`. -/
theorem monitors_status_cex :
    statusAfterCex = some (.str "exploded") ∧
    some (JsonValue.str "exploded") ≠ some (.str "stopped") ∧
    some (JsonValue.str "exploded") ≠ some (.str "completed") ∧
    some (JsonValue.str "exploded") ≠ some (.str "failed") := by
  refine ⟨rfl, ?_, ?_, ?_⟩ <;>
    · intro h
      injection h with h2
      injection h2 with h3
      exact absurd h3 (by decide)
